import Mathlib

/-!
Verification of the `TextToHawkinsDB` component (examples/HawkinDB_RAG.py).

The component orchestrates three external collaborators:
  * the OpenAI chat-completion client (`Client` below, an oracle that maps a
    request to either a text completion or a raised error),
  * the Python `json` library (`loads` / `dumps` oracles),
  * the HawkinsDB store, whose narrow interface is `add_entity`,
    `list_entities`, and `query_frames`.

Python exceptions are modelled as `Except PyError`; a Python method that
catches every exception and returns a dict is modelled as a total function
into `QueryResult`.  Store interactions are additionally recorded as a
`StoreCall` trace so that read-only behaviour is observable.  A Python dict
key that is absent is modelled the same way as a key bound to `None`
(`Option.none`).
-/

/-- A JSON value, as produced by the Python `json` library. -/
inductive Json where
  | null : Json
  | bool : Bool → Json
  | num : Int → Json
  | str : String → Json
  | arr : List Json → Json
  | obj : List (String × Json) → Json

/-- A raised Python exception; `msg` is its `str(e)` rendering. -/
structure PyError where
  msg : String
deriving Repr, DecidableEq

/-- Process environment: `os.getenv` as a partial map. -/
structure Env where
  getenv : String → Option String

/-- Effect of line 8 of the module, `os.environ["OPENAI_API_KEY"] = ""`,
executed at import time. -/
def importModuleEnv (env : Env) : Env :=
  Env.mk (fun k => if k = "OPENAI_API_KEY" then some "" else env.getenv k)

/-- Python `a or b` on an optional string: `None` and `""` are falsy. -/
def pyOrStr (a b : Option String) : Option String :=
  match a with
  | some s => if s = "" then b else some s
  | none => b

/-- `TextToHawkinsDB.__init__`: `self.api_key = api_key or
os.getenv("OPENAI_API_KEY")`; raises `ValueError` if the result is falsy,
otherwise the object (represented by its validated credential) is produced. -/
def TextToHawkinsDB_init (api_key : Option String) (env : Env) :
    Except PyError String :=
  match pyOrStr api_key (env.getenv "OPENAI_API_KEY") with
  | none => Except.error (PyError.mk "OpenAI API key is required")
  | some s =>
      if s = "" then Except.error (PyError.mk "OpenAI API key is required")
      else Except.ok s

/-- One role-tagged chat message. -/
structure Message where
  role : String
  content : String

/-- A chat-completion request as assembled by the component: model id,
messages, temperature (in tenths), optional max_tokens, and whether the
JSON-object response format was requested. -/
structure ChatRequest where
  model : String
  messages : List Message
  temperatureTenths : Nat
  maxTokens : Option Nat
  jsonMode : Bool

/-- The external completion capability: a request either yields the raw
completion text or raises. -/
structure Client where
  chat : ChatRequest → Except PyError String

/-- The fixed extraction instruction prompt (lines 24-47 of the source). -/
def extractionPrompt : String :=
  "Convert the following text into a structured JSON format suitable for a memory database. \n        \n        Rules:\n        1. Extract key entity details, properties, and relationships\n        2. Use underscores for entity names (e.g., Python_Language)\n        3. Categorize memory as one of: Semantic, Episodic, or Procedural\n        4. Include relevant properties and relationships\n        \n        Required JSON format:\n        \x7b\n            \"column\": \"memory_type\",\n            \"name\": \"entity_name\",\n            \"properties\": \x7b\n                \"key1\": \"value1\",\n                \"key2\": [\"value2a\", \"value2b\"]\n            \x7d,\n            \"relationships\": \x7b\n                \"related_to\": [\"entity1\", \"entity2\"],\n                \"part_of\": [\"parent_entity\"]\n            \x7d\n        \x7d\n\n        Text to convert:\n        "

/-- The request built by `text_to_json` (lines 50-58). -/
def extractionRequest (text : String) : ChatRequest :=
  ChatRequest.mk "gpt-3.5-turbo"
    [Message.mk "system" extractionPrompt, Message.mk "user" text]
    3 none true

/-- `TextToHawkinsDB.text_to_json` (lines 22-65): one completion call with
the extraction prompt, then `json.loads` on the completion text.  The
`except` block logs and re-raises, so every error propagates to the caller.
`loads` is the external `json.loads`. -/
def text_to_json (loads : String → Except PyError Json) (client : Client)
    (text : String) : Except PyError Json :=
  match client.chat (extractionRequest text) with
  | Except.error e => Except.error e
  | Except.ok json_str => loads json_str

/-- The uniform response envelope.  Each operation populates only the keys
its Python dict carries; a key the dict does not carry is `none`. -/
structure QueryResult where
  success : Bool
  message : String
  entity_data : Option Json
  db_result : Option Json
  data : Option (List Json)
  response : Option String
  entities : Option (List String)

/-- One call into the HawkinsDB store. -/
inductive StoreCall where
  | add : Json → StoreCall
  | list : StoreCall
  | query : String → StoreCall

/-- Store state as observable through the narrow read interface: the outcome
of `list_entities` and of `query_frames` per entity name (either may raise). -/
structure DBState where
  listResult : Except PyError (List String)
  queryResult : String → Except PyError (List Json)

/-- `TextToHawkinsDB.add_to_db` (lines 67-88).  `addResult` is the store's
`add_entity`; both the extraction error and the store error are caught and
turned into a failure envelope. -/
def add_to_db (loads : String → Except PyError Json) (client : Client)
    (addResult : Json → Except PyError Json) (text : String) :
    QueryResult × List StoreCall :=
  match text_to_json loads client text with
  | Except.error e =>
      (QueryResult.mk false e.msg none none none none none, [])
  | Except.ok json_data =>
      match addResult json_data with
      | Except.error e =>
          (QueryResult.mk false e.msg none none none none none,
            [StoreCall.add json_data])
      | Except.ok result =>
          (QueryResult.mk true "Successfully added to database"
            (some json_data) (some result) none none none,
            [StoreCall.add json_data])

/-- `TextToHawkinsDB.query_entity` (lines 90-113): `query_frames`, then the
Python truthiness test `if not frames`. -/
def query_entity (db : DBState) (entity_name : String) :
    QueryResult × List StoreCall :=
  match db.queryResult entity_name with
  | Except.error e =>
      (QueryResult.mk false e.msg none none none none none,
        [StoreCall.query entity_name])
  | Except.ok frames =>
      if frames.isEmpty then
        (QueryResult.mk false ("No entity found with name: " ++ entity_name)
          none none none none none,
          [StoreCall.query entity_name])
      else
        (QueryResult.mk true "Entity found" none none (some frames) none none,
          [StoreCall.query entity_name])

/-- The context-building loop of `query_by_text` (lines 128-132): for each
entity name, `query_frames`; append `json.dumps(frames, indent=2)` when the
frames list is truthy.  Returns the context blocks (or the first raised
error) together with the store calls issued.  `dumps` is the external
`json.dumps` with `indent=2`. -/
def buildContext (dumps : List Json → String) (db : DBState) :
    List String → Except PyError (List String) × List StoreCall
  | [] => (Except.ok [], [])
  | name :: rest =>
      match db.queryResult name with
      | Except.error e => (Except.error e, [StoreCall.query name])
      | Except.ok frames =>
          match buildContext dumps db rest with
          | (Except.error e, tr) => (Except.error e, StoreCall.query name :: tr)
          | (Except.ok ctx, tr) =>
              (Except.ok (if frames.isEmpty then ctx else dumps frames :: ctx),
                StoreCall.query name :: tr)

/-- The literal prompt text before the interpolated context (lines 135-139). -/
def answerPromptPre : String :=
  "You are a helpful assistant with access to a knowledge base.\n            Answer the following question based on this context:\n\n            Context:\n            "

/-- The literal prompt text between the context and the question (line 141). -/
def answerPromptMid : String :=
  "\n\n            Question: "

/-- The literal prompt text after the question (lines 143-148). -/
def answerPromptPost : String :=
  "\n\n            Rules:\n            1. Only use information from the provided context\n            2. If information is not in the context, say so\n            3. Be specific and include details when available\n            4. Format numbers and dates clearly\n            "

/-- The f-string prompt of `query_by_text` (lines 135-148): the space-joined
context and the question text are interpolated verbatim. -/
def answerPrompt (context : List String) (query_text : String) : String :=
  answerPromptPre ++ String.intercalate " " context ++ answerPromptMid
    ++ query_text ++ answerPromptPost

/-- The answering request (lines 151-158): model "gpt4o", a single
system-role message, temperature 0.3, max_tokens 500. -/
def answerRequest (prompt : String) : ChatRequest :=
  ChatRequest.mk "gpt4o" [Message.mk "system" prompt] 3 (some 500) false

/-- `TextToHawkinsDB.query_by_text` (lines 115-174).  Besides the envelope it
returns the trace of store calls and the list of completion requests issued
(so that skipping the Answerer is observable). -/
def query_by_text (dumps : List Json → String) (client : Client)
    (db : DBState) (query_text : String) :
    QueryResult × List StoreCall × List ChatRequest :=
  match db.listResult with
  | Except.error e =>
      (QueryResult.mk false e.msg none none none none none,
        [StoreCall.list], [])
  | Except.ok entities =>
      if entities.isEmpty then
        (QueryResult.mk true "Database is empty" none none none
          (some "No information available in the database.") none,
          [StoreCall.list], [])
      else
        match buildContext dumps db (entities.take 5) with
        | (Except.error e, tr) =>
            (QueryResult.mk false e.msg none none none none none,
              StoreCall.list :: tr, [])
        | (Except.ok context, tr) =>
            let req := answerRequest (answerPrompt context query_text)
            match client.chat req with
            | Except.error e =>
                (QueryResult.mk false e.msg none none none none none,
                  StoreCall.list :: tr, [req])
            | Except.ok answer =>
                (QueryResult.mk true "Query processed successfully" none none
                  none (some answer) none,
                  StoreCall.list :: tr, [req])

/-- `TextToHawkinsDB.list_all_entities` (lines 176-191). -/
def list_all_entities (db : DBState) : QueryResult × List StoreCall :=
  match db.listResult with
  | Except.error e =>
      (QueryResult.mk false e.msg none none none none none, [StoreCall.list])
  | Except.ok entities =>
      (QueryResult.mk true "Entities retrieved successfully" none none none
        none (some entities), [StoreCall.list])

/-- Whether a JSON value is an object carrying the given top-level key. -/
def hasKey : Json → String → Bool
  | Json.obj fields, k => fields.any (fun p => p.1 = k)
  | _, _ => false

/-- Spec-side characterization of the context blocks: the serializations of
the frames of the given names, in order, skipping names whose frame query
yields no frames (the error branch never occurs when `buildContext`
succeeds). -/
def contextOf (dumps : List Json → String) (db : DBState)
    (names : List String) : List String :=
  names.filterMap (fun n =>
    match db.queryResult n with
    | Except.ok frames => if frames.isEmpty then none else some (dumps frames)
    | Except.error _ => none)

/-- Whether a store call is the write operation `add_entity`. -/
def isWrite : StoreCall → Bool
  | StoreCall.add _ => true
  | StoreCall.list => false
  | StoreCall.query _ => false

/-- A trace consisting only of read calls. -/
def noWrites (tr : List StoreCall) : Bool :=
  tr.all (fun c => !isWrite c)

/-- Interpret a store-call trace over an abstract store state in which the
reads `list_entities` and `query_frames` leave the state unchanged and the
write `add_entity` has an arbitrary effect `addEff`. -/
def applyTrace {σ : Type} (addEff : σ → Json → σ) : σ → List StoreCall → σ
  | s, [] => s
  | s, StoreCall.add j :: rest => applyTrace addEff (addEff s j) rest
  | s, StoreCall.list :: rest => applyTrace addEff s rest
  | s, StoreCall.query _ :: rest => applyTrace addEff s rest

/-- Environment with no `OPENAI_API_KEY` set, for witnesses. -/
def envNoKey : Env := Env.mk (fun _ => none)

/-- A possible behaviour of the external model on the extraction request:
it answers with the JSON text of an object that has only a "name" key.
`json.loads` on that text yields the corresponding object. -/
def clientC1 : Client := Client.mk (fun _ => Except.ok "\x7b\"name\": \"X\"\x7d")

/-- The external `json.loads` restricted to the completion text above. -/
def loadsC1 : String → Except PyError Json := fun s =>
  if s = "\x7b\"name\": \"X\"\x7d" then Except.ok (Json.obj [("name", Json.str "X")])
  else Except.error (PyError.mk "Expecting value: line 1 column 1 (char 0)")

/-- A client whose completion call raises, for error-path witnesses. -/
def clientBoom : Client :=
  Client.mk (fun _ => Except.error (PyError.mk "API connection error"))

/-- A store whose reads raise, for error-path witnesses. -/
def dbBoom : DBState :=
  DBState.mk (Except.error (PyError.mk "API connection error"))
    (fun _ => Except.error (PyError.mk "API connection error"))

/-- A store with no entities and no frames, for witnesses. -/
def dbEmpty : DBState :=
  DBState.mk (Except.ok []) (fun _ => Except.ok [])

/-- A store that lists an entity name whose frame query returns no frames,
for witnesses. -/
def dbGhost : DBState :=
  DBState.mk (Except.ok ["Ghost"]) (fun _ => Except.ok [])

/-- A store listing two entities, one with a frame and one without, for
witnesses. -/
def dbTwo : DBState :=
  DBState.mk (Except.ok ["A", "B"])
    (fun n => if n = "A" then Except.ok [Json.str "a"] else Except.ok [])

/-- A concrete stand-in for the external `json.dumps`, for witnesses. -/
def dumpsW : List Json → String := fun _ => "FRAMES"

/-- A concrete stand-in for the store write `add_entity`, for witnesses. -/
def addW : Json → Except PyError Json := fun _ => Except.ok Json.null

/-- All payload keys of an envelope are `None` (a key the dict does not
carry counts as `None`): `entity_data`, `db_result`, `data`, `response`,
`entities`. -/
def payloadsNone (r : QueryResult) : Prop :=
  r.entity_data = none ∧ r.db_result = none ∧ r.data = none ∧
    r.response = none ∧ r.entities = none

/-- The failure envelope built in every `except` block: `success=false`,
the caught error's text as the message, and every payload key `None`. -/
def failWith (m : String) : QueryResult :=
  QueryResult.mk false m none none none none none

lemma buildContext_fst_ok (dumps : List Json → String) (db : DBState) :
    ∀ (names : List String) (ctx : List String),
      (buildContext dumps db names).1 = Except.ok ctx →
      ctx = contextOf dumps db names := by
  intro names
  induction names with
  | nil =>
      intro ctx h
      simp only [buildContext] at h
      simp only [contextOf, List.filterMap_nil]
      exact (Except.ok.inj h).symm
  | cons name rest ih =>
      intro ctx h
      simp only [buildContext] at h
      cases hq : db.queryResult name with
      | error e => rw [hq] at h; simp at h
      | ok frames =>
          rw [hq] at h
          rcases hb : buildContext dumps db rest with ⟨r, tr⟩
          rw [hb] at h
          cases r with
          | error e => simp at h
          | ok ctx2 =>
              simp only at h
              have hctx2 : ctx2 = contextOf dumps db rest := by
                apply ih; rw [hb]
              have h2 := Except.ok.inj h
              rw [← h2, hctx2]
              simp only [contextOf, List.filterMap_cons, hq]
              cases hfe : frames.isEmpty <;> simp [hfe]

lemma buildContext_fst_error (dumps : List Json → String) (db : DBState) :
    ∀ (names : List String) (e : PyError),
      (buildContext dumps db names).1 = Except.error e →
      ∃ n, n ∈ names ∧ db.queryResult n = Except.error e := by
  intro names
  induction names with
  | nil => intro e h; simp [buildContext] at h
  | cons name rest ih =>
      intro e h
      simp only [buildContext] at h
      cases hq : db.queryResult name with
      | error e2 =>
          rw [hq] at h
          have he : e2 = e := Except.error.inj h
          exact ⟨name, List.mem_cons_self name rest, by rw [hq, he]⟩
      | ok frames =>
          rw [hq] at h
          rcases hb : buildContext dumps db rest with ⟨r, tr⟩
          rw [hb] at h
          cases r with
          | error e2 =>
              have he : e2 = e := Except.error.inj h
              have hr : (buildContext dumps db rest).1 = Except.error e := by
                rw [hb, ← he]
              rcases ih e hr with ⟨n, hn, hqn⟩
              exact ⟨n, List.mem_cons_of_mem name hn, hqn⟩
          | ok ctx => simp at h

lemma buildContext_snd_noWrites (dumps : List Json → String) (db : DBState) :
    ∀ names : List String, noWrites (buildContext dumps db names).2 = true := by
  intro names
  induction names with
  | nil => rfl
  | cons name rest ih =>
      simp only [buildContext]
      cases hq : db.queryResult name with
      | error e => rfl
      | ok frames =>
          rcases hb : buildContext dumps db rest with ⟨r, tr⟩
          rw [hb] at ih
          cases r with
          | error e =>
              simpa [noWrites, isWrite] using ih
          | ok ctx =>
              simpa [noWrites, isWrite] using ih

lemma applyTrace_of_noWrites {σ : Type} (addEff : σ → Json → σ) :
    ∀ (tr : List StoreCall) (s : σ), noWrites tr = true → applyTrace addEff s tr = s := by
  intro tr
  induction tr with
  | nil => intro s _; rfl
  | cons c rest ih =>
      intro s h
      cases c with
      | add j => simp [noWrites, isWrite] at h
      | list =>
          have hrest : noWrites rest = true := by
            simpa [noWrites, isWrite] using h
          simpa [applyTrace] using ih s hrest
      | query n =>
          have hrest : noWrites rest = true := by
            simpa [noWrites, isWrite] using h
          simpa [applyTrace] using ih s hrest

/-- C7: if no credential is passed and none is obtainable from the
environment (absent or empty, both falsy in Python), construction raises the
`ValueError` and no object is produced. -/
theorem hawkins_c7_missing_credential (api_key : Option String) (env : Env)
    (ha : api_key = none ∨ api_key = some "")
    (he : env.getenv "OPENAI_API_KEY" = none ∨ env.getenv "OPENAI_API_KEY" = some "") :
    TextToHawkinsDB_init api_key env =
      Except.error (PyError.mk "OpenAI API key is required") := by
  rcases ha with h | h <;> rcases he with h2 | h2 <;>
    simp [TextToHawkinsDB_init, pyOrStr, h, h2]

theorem hawkins_c7_witness :
    ((none : Option String) = none ∨ (none : Option String) = some "") ∧
    (envNoKey.getenv "OPENAI_API_KEY" = none ∨ envNoKey.getenv "OPENAI_API_KEY" = some "") ∧
    TextToHawkinsDB_init none envNoKey =
      Except.error (PyError.mk "OpenAI API key is required") :=
  ⟨Or.inl rfl, Or.inl rfl,
    hawkins_c7_missing_credential none envNoKey (Or.inl rfl) (Or.inl rfl)⟩

/-- C8: importing the module overwrites `OPENAI_API_KEY` with the empty
string, and since the constructor treats the empty string as absent, every
construction that omits `api_key` raises the missing-credential error: the
environment fallback can never succeed after import. -/
theorem hawkins_c8_import_clobbers_env (env : Env) :
    (importModuleEnv env).getenv "OPENAI_API_KEY" = some "" ∧
    TextToHawkinsDB_init none (importModuleEnv env) =
      Except.error (PyError.mk "OpenAI API key is required") := by
  constructor
  · simp [importModuleEnv]
  · simp [TextToHawkinsDB_init, pyOrStr, importModuleEnv]

/-- C5: when the store lists no entities, `query_by_text` returns the fixed
success envelope ("Database is empty" / "No information available in the
database.") and issues no completion request: the Answerer is never
invoked (empty request list in the third component). -/
theorem hawkins_c5_empty_store (dumps : List Json → String) (client : Client)
    (db : DBState) (q : String) (hl : db.listResult = Except.ok []) :
    query_by_text dumps client db q =
      (QueryResult.mk true "Database is empty" none none none
        (some "No information available in the database.") none,
        [StoreCall.list], []) := by
  simp [query_by_text, hl]

theorem hawkins_c5_witness :
    dbEmpty.listResult = Except.ok [] ∧
    query_by_text dumpsW clientBoom dbEmpty "What is stored?" =
      (QueryResult.mk true "Database is empty" none none none
        (some "No information available in the database.") none,
        [StoreCall.list], []) :=
  ⟨rfl, hawkins_c5_empty_store dumpsW clientBoom dbEmpty "What is stored?" rfl⟩

/-- C6: for a name absent from the store — whose frame query therefore
returns the empty sequence per the store interface — `query_entity` returns
`success=false` with the "No entity found with name: ..." message naming the
entity and `data=None`.  The operation is total (it returns an envelope, not
`Except`), so no exception reaches the caller. -/
theorem hawkins_c6_not_found (db : DBState) (name : String)
    (habs : db.queryResult name = Except.ok []) :
    query_entity db name =
      (QueryResult.mk false ("No entity found with name: " ++ name)
        none none none none none,
        [StoreCall.query name]) := by
  simp [query_entity, habs]

theorem hawkins_c6_witness :
    dbEmpty.queryResult "Python_Language" = Except.ok [] ∧
    query_entity dbEmpty "Python_Language" =
      (QueryResult.mk false ("No entity found with name: " ++ "Python_Language")
        none none none none none,
        [StoreCall.query "Python_Language"]) :=
  ⟨rfl, hawkins_c6_not_found dbEmpty "Python_Language" rfl⟩

/-- C9: `query_entity` depends only on the outcome of the frame query; when
that outcome is the empty (falsy) list it reports the not-found failure, so
a store listing the entity with zero frames and a store not containing the
entity at all produce identical envelopes. -/
theorem hawkins_c9_zero_frames_indistinguishable (db db' : DBState) (name : String)
    (h : db.queryResult name = Except.ok [])
    (h' : db'.queryResult name = Except.ok []) :
    query_entity db name = query_entity db' name ∧
    (query_entity db name).1 =
      QueryResult.mk false ("No entity found with name: " ++ name)
        none none none none none := by
  constructor
  · simp [query_entity, h, h']
  · simp [query_entity, h]

theorem hawkins_c9_witness :
    dbGhost.listResult = Except.ok ["Ghost"] ∧
    dbEmpty.listResult = Except.ok [] ∧
    dbGhost.queryResult "Ghost" = Except.ok [] ∧
    dbEmpty.queryResult "Ghost" = Except.ok [] ∧
    (query_entity dbGhost "Ghost" = query_entity dbEmpty "Ghost" ∧
      (query_entity dbGhost "Ghost").1 =
        QueryResult.mk false ("No entity found with name: " ++ "Ghost")
          none none none none none) :=
  ⟨rfl, rfl, rfl, rfl,
    hawkins_c9_zero_frames_indistinguishable dbGhost dbEmpty "Ghost" rfl rfl⟩

/-- C1 counterexample: with the model answering the JSON text of an object
that carries only a "name" key (and `json.loads` parsing it accordingly),
`text_to_json` returns that object without error — it performs no validation
— so it returns an object missing the required "category" key, contradicting
the claim that it either returns all four keys or fails. -/
theorem hawkins_c1_counterexample :
    text_to_json loadsC1 clientC1 "Python is a programming language." =
      Except.ok (Json.obj [("name", Json.str "X")]) ∧
    hasKey (Json.obj [("name", Json.str "X")]) "category" = false := by
  constructor
  · rfl
  · rfl

/-- C1 amended: for every non-empty input text, `text_to_json` either
returns exactly the JSON value that `json.loads` parses from the model's
completion — with no validation that the four required keys are present —
or propagates an error (model call or parse failure). -/
theorem hawkins_c1_amended (loads : String → Except PyError Json)
    (client : Client) (text : String) (hne : text ≠ "") :
    (∃ s j, client.chat (extractionRequest text) = Except.ok s ∧
      loads s = Except.ok j ∧ text_to_json loads client text = Except.ok j) ∨
    (∃ e, text_to_json loads client text = Except.error e) := by
  cases hc : client.chat (extractionRequest text) with
  | error e => right; exact ⟨e, by simp [text_to_json, hc]⟩
  | ok s =>
      cases hlo : loads s with
      | error e => right; exact ⟨e, by simp [text_to_json, hc, hlo]⟩
      | ok j => left; exact ⟨s, j, rfl, hlo, by simp only [text_to_json, hc, hlo]⟩

theorem hawkins_c1_amended_witness :
    ("Python is a programming language." ≠ "") ∧
    ((∃ s j, clientC1.chat (extractionRequest "Python is a programming language.") =
        Except.ok s ∧ loadsC1 s = Except.ok j ∧
        text_to_json loadsC1 clientC1 "Python is a programming language." =
          Except.ok j) ∨
      (∃ e, text_to_json loadsC1 clientC1 "Python is a programming language." =
        Except.error e)) :=
  ⟨by decide,
    hawkins_c1_amended loadsC1 clientC1 "Python is a programming language." (by decide)⟩

/-- C3 counterexample: with a client whose completion call raises,
`text_to_json` — listed by the claim among the operations whose errors are
converted into failure envelopes — re-raises the error to its caller
(its `except` block logs and re-raises), rather than returning any
`success=false` envelope. -/
theorem hawkins_c3_counterexample :
    text_to_json loadsC1 clientBoom "hello" =
      Except.error (PyError.mk "API connection error") := rfl

/-- C3 amended: every error arising anywhere inside the four
envelope-returning operations is caught at the operation boundary and
converted into the failure envelope carrying that error's text —
in `add_to_db` an error from the extraction (re-raised by `text_to_json`)
or from the store write `add_entity`; in `query_entity` an error from
`query_frames`; in `query_by_text` an error from `list_entities`, from a
`query_frames` call inside the context loop, or from the completion call;
in `list_all_entities` an error from `list_entities`.  The remaining
alternative of each disjunction is the branch in which no error arose at
that point.  `text_to_json` itself converts nothing: it propagates the
error of its model call or of `json.loads` unchanged to its caller. -/
theorem hawkins_c3_amended (loads : String → Except PyError Json)
    (dumps : List Json → String) (addResult : Json → Except PyError Json)
    (client : Client) (db : DBState) (text name q : String) :
    ((∃ e, text_to_json loads client text = Except.error e ∧
        (client.chat (extractionRequest text) = Except.error e ∨
          ∃ s, client.chat (extractionRequest text) = Except.ok s ∧
            loads s = Except.error e)) ∨
      ∃ j, text_to_json loads client text = Except.ok j) ∧
    ((∃ e, text_to_json loads client text = Except.error e ∧
        (add_to_db loads client addResult text).1 = failWith e.msg) ∨
      (∃ j e, text_to_json loads client text = Except.ok j ∧
        addResult j = Except.error e ∧
        (add_to_db loads client addResult text).1 = failWith e.msg) ∨
      (add_to_db loads client addResult text).1.success = true) ∧
    ((∃ e, db.queryResult name = Except.error e ∧
        (query_entity db name).1 = failWith e.msg) ∨
      ∃ frames, db.queryResult name = Except.ok frames) ∧
    ((∃ e, db.listResult = Except.error e ∧
        (query_by_text dumps client db q).1 = failWith e.msg) ∨
      (∃ entities e n, db.listResult = Except.ok entities ∧
        entities.isEmpty = false ∧
        (buildContext dumps db (entities.take 5)).1 = Except.error e ∧
        n ∈ entities.take 5 ∧ db.queryResult n = Except.error e ∧
        (query_by_text dumps client db q).1 = failWith e.msg) ∨
      (∃ entities ctx e, db.listResult = Except.ok entities ∧
        entities.isEmpty = false ∧
        (buildContext dumps db (entities.take 5)).1 = Except.ok ctx ∧
        client.chat (answerRequest (answerPrompt ctx q)) = Except.error e ∧
        (query_by_text dumps client db q).1 = failWith e.msg) ∨
      (query_by_text dumps client db q).1.success = true) ∧
    ((∃ e, db.listResult = Except.error e ∧
        (list_all_entities db).1 = failWith e.msg) ∨
      (list_all_entities db).1.success = true) := by
  refine ⟨?_, ?_, ?_, ?_, ?_⟩
  · rcases hc : client.chat (extractionRequest text) with e | s
    · exact Or.inl ⟨e, by simp [text_to_json, hc], Or.inl rfl⟩
    · rcases hlo : loads s with e | j
      · exact Or.inl ⟨e, by simp [text_to_json, hc, hlo], Or.inr ⟨s, rfl, hlo⟩⟩
      · exact Or.inr ⟨j, by simp [text_to_json, hc, hlo]⟩
  · rcases htj : text_to_json loads client text with e | j
    · exact Or.inl ⟨e, rfl, by simp [add_to_db, htj, failWith]⟩
    · rcases ha : addResult j with e | r
      · exact Or.inr (Or.inl ⟨j, e, rfl, ha,
          by simp [add_to_db, htj, ha, failWith]⟩)
      · exact Or.inr (Or.inr (by simp [add_to_db, htj, ha]))
  · rcases hq : db.queryResult name with e | frames
    · exact Or.inl ⟨e, rfl, by simp [query_entity, hq, failWith]⟩
    · exact Or.inr ⟨frames, rfl⟩
  · rcases hl : db.listResult with e | entities
    · exact Or.inl ⟨e, rfl, by simp [query_by_text, hl, failWith]⟩
    · cases hne : entities.isEmpty
      · rcases hb : buildContext dumps db (entities.take 5) with ⟨r, tr⟩
        cases r with
        | error e =>
            have hr : (buildContext dumps db (entities.take 5)).1 =
                Except.error e := by rw [hb]
            rcases buildContext_fst_error dumps db (entities.take 5) e hr with
              ⟨n, hn, hqn⟩
            exact Or.inr (Or.inl ⟨entities, e, n, rfl, hne, hr, hn, hqn,
              by simp [query_by_text, hl, hne, hb, failWith]⟩)
        | ok ctx =>
            rcases hcc : client.chat (answerRequest (answerPrompt ctx q)) with
              e | ans
            · exact Or.inr (Or.inr (Or.inl ⟨entities, ctx, e, rfl, hne,
                by rw [hb], hcc,
                by simp [query_by_text, hl, hne, hb, hcc, failWith]⟩))
            · exact Or.inr (Or.inr (Or.inr
                (by simp [query_by_text, hl, hne, hb, hcc])))
      · exact Or.inr (Or.inr (Or.inr (by simp [query_by_text, hl, hne])))
  · rcases hl : db.listResult with e | entities
    · exact Or.inl ⟨e, rfl, by simp [list_all_entities, hl, failWith]⟩
    · exact Or.inr (by simp [list_all_entities, hl])

/-- C4: for every operation and input, either the envelope reports
`success=true`, or every payload key of the envelope is `None`
(`entity_data`, `db_result`, `data`, `response`, `entities`); equivalently,
`success=false` implies all payloads are `None`.  In every failure branch the
message is the caught exception's text or an explicit descriptive string. -/
theorem hawkins_c4_no_payload_on_failure
    (loads : String → Except PyError Json) (dumps : List Json → String)
    (client : Client) (addResult : Json → Except PyError Json)
    (db : DBState) (text name q : String) :
    ((add_to_db loads client addResult text).1.success = true ∨
      payloadsNone (add_to_db loads client addResult text).1) ∧
    ((query_entity db name).1.success = true ∨
      payloadsNone (query_entity db name).1) ∧
    ((query_by_text dumps client db q).1.success = true ∨
      payloadsNone (query_by_text dumps client db q).1) ∧
    ((list_all_entities db).1.success = true ∨
      payloadsNone (list_all_entities db).1) := by
  refine ⟨?_, ?_, ?_, ?_⟩
  · rcases htj : text_to_json loads client text with e | j
    · simp [add_to_db, htj, payloadsNone]
    · rcases ha : addResult j with e | r
      · simp [add_to_db, htj, ha, payloadsNone]
      · simp [add_to_db, htj, ha]
  · rcases hq : db.queryResult name with e | frames
    · simp [query_entity, hq, payloadsNone]
    · cases hfe : frames.isEmpty
      · simp [query_entity, hq, hfe]
      · simp [query_entity, hq, hfe, payloadsNone]
  · rcases hl : db.listResult with e | entities
    · simp [query_by_text, hl, payloadsNone]
    · cases hne : entities.isEmpty
      · rcases hb : buildContext dumps db (entities.take 5) with ⟨r, tr⟩
        cases r with
        | error e => simp [query_by_text, hl, hne, hb, payloadsNone]
        | ok ctx =>
            rcases hc : client.chat (answerRequest (answerPrompt ctx q)) with e | ans
            · simp [query_by_text, hl, hne, hb, hc, payloadsNone]
            · simp [query_by_text, hl, hne, hb, hc]
      · simp [query_by_text, hl, hne]
  · rcases hl : db.listResult with e | entities <;>
      simp [list_all_entities, hl, payloadsNone]

/-- C2: against a store whose entity listing is non-empty, when the context
loop completes with blocks `ctx`, `query_by_text` issues exactly one
completion request; that request carries a single system-role message whose
content is the prompt; the prompt embeds the space-joined context string and
the question text verbatim between fixed literals; and `ctx` equals the
serializations of the frames of the first five entities in listing order
(the cutoff taken on the raw list, entities with no frames skipped). -/
theorem hawkins_c2_context_and_prompt (dumps : List Json → String)
    (client : Client) (db : DBState) (q : String)
    (entities : List String) (ctx : List String)
    (hl : db.listResult = Except.ok entities) (hne : entities ≠ [])
    (hctx : (buildContext dumps db (entities.take 5)).1 = Except.ok ctx) :
    (query_by_text dumps client db q).2.2 =
      [answerRequest (answerPrompt ctx q)] ∧
    (answerRequest (answerPrompt ctx q)).messages =
      [Message.mk "system" (answerPrompt ctx q)] ∧
    answerPrompt ctx q =
      answerPromptPre ++ String.intercalate " " ctx ++ answerPromptMid ++ q
        ++ answerPromptPost ∧
    ctx = contextOf dumps db (entities.take 5) := by
  refine ⟨?_, rfl, rfl, buildContext_fst_ok dumps db _ _ hctx⟩
  have hne2 : entities.isEmpty = false := by
    cases entities with
    | nil => exact absurd rfl hne
    | cons a l => rfl
  rcases hb : buildContext dumps db (entities.take 5) with ⟨r, tr⟩
  rw [hb] at hctx
  have hr : r = Except.ok ctx := hctx
  subst hr
  rcases hc : client.chat (answerRequest (answerPrompt ctx q)) with e | ans <;>
    simp [query_by_text, hl, hne2, hb, hc]

theorem hawkins_c2_witness :
    dbTwo.listResult = Except.ok ["A", "B"] ∧
    (["A", "B"] ≠ ([] : List String)) ∧
    (buildContext dumpsW dbTwo (["A", "B"].take 5)).1 = Except.ok ["FRAMES"] ∧
    ((query_by_text dumpsW clientBoom dbTwo "Q").2.2 =
        [answerRequest (answerPrompt ["FRAMES"] "Q")] ∧
      (answerRequest (answerPrompt ["FRAMES"] "Q")).messages =
        [Message.mk "system" (answerPrompt ["FRAMES"] "Q")] ∧
      answerPrompt ["FRAMES"] "Q" =
        answerPromptPre ++ String.intercalate " " ["FRAMES"] ++ answerPromptMid
          ++ "Q" ++ answerPromptPost ∧
      ["FRAMES"] = contextOf dumpsW dbTwo (["A", "B"].take 5)) :=
  ⟨rfl, List.cons_ne_nil "A" ["B"], rfl,
    hawkins_c2_context_and_prompt dumpsW clientBoom dbTwo "Q" ["A", "B"]
      ["FRAMES"] rfl (List.cons_ne_nil "A" ["B"]) rfl⟩

/-- C10: the read-path operations issue only `list_entities` and
`query_frames` store calls — never `add_entity` — and therefore, under any
store-state interpretation in which reads leave the state unchanged and the
write has an arbitrary effect, the state after each operation equals the
state before. -/
theorem hawkins_c10_read_only {σ : Type} (dumps : List Json → String)
    (client : Client) (db : DBState) (addEff : σ → Json → σ) (s : σ)
    (name q : String) :
    (noWrites (query_entity db name).2 = true ∧
      noWrites (query_by_text dumps client db q).2.1 = true ∧
      noWrites (list_all_entities db).2 = true) ∧
    (applyTrace addEff s (query_entity db name).2 = s ∧
      applyTrace addEff s (query_by_text dumps client db q).2.1 = s ∧
      applyTrace addEff s (list_all_entities db).2 = s) := by
  have h1 : noWrites (query_entity db name).2 = true := by
    rcases hq : db.queryResult name with e | frames
    · simp [query_entity, hq, noWrites, isWrite]
    · cases hfe : frames.isEmpty <;>
        simp [query_entity, hq, hfe, noWrites, isWrite]
  have h2 : noWrites (query_by_text dumps client db q).2.1 = true := by
    rcases hl : db.listResult with e | entities
    · simp [query_by_text, hl, noWrites, isWrite]
    · cases hne : entities.isEmpty
      · rcases hb : buildContext dumps db (entities.take 5) with ⟨r, tr⟩
        have htr : noWrites tr = true := by
          have h := buildContext_snd_noWrites dumps db (entities.take 5)
          rw [hb] at h
          exact h
        cases r with
        | error e =>
            simp only [query_by_text, hl, hne, hb]
            simpa [noWrites, isWrite] using htr
        | ok ctx =>
            rcases hc : client.chat (answerRequest (answerPrompt ctx q)) with e | ans <;>
              · simp only [query_by_text, hl, hne, hb, hc]
                simpa [noWrites, isWrite] using htr
      · simp [query_by_text, hl, hne, noWrites, isWrite]
  have h3 : noWrites (list_all_entities db).2 = true := by
    rcases hl : db.listResult with e | entities <;>
      simp [list_all_entities, hl, noWrites, isWrite]
  exact ⟨⟨h1, h2, h3⟩,
    applyTrace_of_noWrites addEff _ s h1,
    applyTrace_of_noWrites addEff _ s h2,
    applyTrace_of_noWrites addEff _ s h3⟩
